import Mathlib

/-!
Verification of the DataTable core logic (sort comparator, sort engine,
sort-state machine, selection tracker, cell renderer) found in
`src/components/DataTable/DataTable.stories.tsx`, against its specification.

Modelling conventions:
* JS cell values are modelled by `Value`; `null` and `undefined` are distinct
  values (`===` distinguishes them) that are both caught by the code's loose
  `== null` checks (`Value.isNullish`); JS numbers are modelled as integers
  (no NaN), and `Date` objects by their timestamp.
* `String.prototype.localeCompare` is modelled as lexicographic comparison
  returning -1/0/1, and `String(date)` as an injective rendering of the
  timestamp; both are host-environment functions.
* `Array.prototype.sort` is modelled by the stable `List.insertionSort` on
  the relation "comparator result ≤ 0". ECMA-262 specifies the sort result
  (a sorted, stable permutation) only when the comparator is consistent; when
  it is not — possible here when a column mixes value types, since the
  cross-type string fallback is intransitive — the host's result is
  implementation-defined, and no theorem below depends on the sorted branch's
  output in that regime.
* The JS `Set` of selected indices is modelled as an insertion-ordered
  duplicate-free list: `add` appends if absent, `delete` removes.
-/

namespace DataTable

/-- A cell value as handled by `compareValues` / `renderCell`. `null` and
`undefined` are distinct (they are not `===`-equal in JS). -/
inductive Value where
  | null : Value
  | undefined : Value
  | num : Int → Value
  | str : String → Value
  | date : Int → Value
  | bool : Bool → Value
deriving DecidableEq, Repr

/-- The JS loose check `v == null`, true exactly for null and undefined. -/
def Value.isNullish : Value → Bool
  | .null => true
  | .undefined => true
  | _ => false

/-- Model of `String.prototype.localeCompare`: lexicographic order on the
character sequences, reported as -1/0/1. -/
def localeCompare (x y : String) : Int :=
  if x = y then 0 else if x.data < y.data then -1 else 1

/-- Model of the JS `String(v)` conversion (the `Date` case is an injective
rendering of the timestamp). -/
def jsToString : Value → String
  | .null => "null"
  | .undefined => "undefined"
  | .num n => toString n
  | .str s => s
  | .date t => "[Date " ++ toString t ++ "]"
  | .bool b => if b then "true" else "false"

/-- Embedding of `compareValues` from `DataTable.stories.tsx` (lines 618-638):
`===`-equality first, then the loose `== null` checks (catching both null and
undefined), then the per-type branches, then the fallback to string
comparison. -/
def compareValues (a b : Value) : Int :=
  if a = b then 0
  else if a.isNullish then -1
  else if b.isNullish then 1
  else
    match a, b with
    | .num x, .num y => if x < y then -1 else 1
    | .str x, .str y => localeCompare x y
    | .date x, .date y => x - y
    | .bool x, .bool y => (if x then (1 : Int) else 0) - (if y then (1 : Int) else 0)
    | a, b => localeCompare (jsToString a) (jsToString b)

/-- A row: a total mapping from column keys to cell values (an absent field
reads as `.undefined`, which the code's `== null` and `?? ""` checks treat
like null). -/
def Row : Type := String → Value

/-- A sort direction; the JS `SortDirection = "asc" | "desc" | null` is
`Option Direction`. -/
inductive Direction where
  | asc : Direction
  | desc : Direction
deriving DecidableEq, Repr

/-- What `renderCell` produces: either plain text (the stringification path)
or an opaque node coming from a custom `render` function. -/
inductive Displayable where
  | text : String → Displayable
  | node : Nat → Displayable
deriving DecidableEq, Repr

/-- Embedding of the `Column<T>` descriptor (key, header, `sortable?` flag,
optional custom `render`). Presentation-only fields (width, align) omitted. -/
structure Column where
  key : String
  header : String
  sortable : Bool
  render : Option (Value → Row → Displayable)

/-- The component's sort state: `sortKey` / `sortDirection` `useState` pair. -/
structure SortState where
  sortKey : Option String
  sortDirection : Option Direction
deriving DecidableEq, Repr

/-- The comparator actually passed to `sort`: `compareValues` on the key
field, negated when the direction is `desc` (line 643-645). -/
def dirCompare (dir : Direction) (k : String) (a b : Row) : Int :=
  let cmp := compareValues (a k) (b k)
  match dir with
  | .asc => cmp
  | .desc => -cmp

/-- Embedding of `sortedData` (lines 640-647): the input list unchanged when
either the key or the direction is null, otherwise a stable sort by the
directed comparator. The stable-sort model is only faithful where ECMA-262
pins the result down, i.e. when the comparator is consistent on the data;
no theorem below relies on the sorted branch's output outside that case. -/
def sortedData (data : List Row) (sortKey : Option String)
    (sortDirection : Option Direction) : List Row :=
  match sortKey, sortDirection with
  | some k, some dir => data.insertionSort (fun a b => dirCompare dir k a b ≤ 0)
  | _, _ => data

/-- `columns.find(col => col.key === key)?.sortable`, defaulted to false:
whether the clicked column exists and is sortable. -/
def columnSortable (columns : List Column) (key : String) : Bool :=
  match columns.find? (fun c => c.key == key) with
  | some c => c.sortable
  | none => false

/-- Embedding of `handleSort` (lines 650-667): returns the updated sort state
together with the `onSort` notification emitted (if any). A click on a
non-sortable column is an early return. -/
def handleSort (columns : List Column) (st : SortState) (key : String) :
    SortState × Option (String × Direction) :=
  if columnSortable columns key then
    let newDirection : Option Direction :=
      if st.sortKey = some key then
        match st.sortDirection with
        | some .asc => some .desc
        | some .desc => none
        | none => some .asc
      else some .asc
    (⟨if newDirection.isSome then some key else none, newDirection⟩,
      newDirection.map fun d => (key, d))
  else (st, none)

/-- Embedding of the selection update in `handleRowSelect` (lines 673-691):
`Set.add` appends the index when absent, `Set.delete` removes it. -/
def handleRowSelect (selectedRows : List Nat) (index : Nat) (isSelected : Bool) :
    List Nat :=
  if isSelected then
    if index ∈ selectedRows then selectedRows else selectedRows ++ [index]
  else selectedRows.erase index

/-- Embedding of the selection update in `handleSelectAll` (lines 694-710):
clear when the selection size equals the view length, otherwise fill with all
view indices in order. -/
def handleSelectAll (selectedRows : List Nat) (viewLength : Nat) : List Nat :=
  let isAllSelected := selectedRows.length = viewLength
  if isAllSelected then [] else List.range viewLength

/-- Embedding of `selectAllState` (lines 713-717): the tri-state summary of
the selection, by cardinality alone. -/
def selectAllState (selectedRows : List Nat) (viewLength : Nat) : String :=
  if selectedRows.length = 0 then "none"
  else if selectedRows.length = viewLength then "all"
  else "partial"

/-- Model of the JS `String(value ?? "")` used on the default render path:
null/absent becomes the empty string. -/
def jsDisplayString : Value → String
  | .null => ""
  | .undefined => ""
  | v => jsToString v

/-- Embedding of `renderCell` (lines 720-728): custom `render` result used
verbatim when supplied, otherwise the display string of the cell value. -/
def renderCell (column : Column) (row : Row) : Displayable :=
  let value := row column.key
  match column.render with
  | some render => render value row
  | none => .text (jsDisplayString value)

/-- Whether a value is a `Date` (the one comparator branch whose result is
not normalized to -1/0/1). -/
def Value.isDate : Value → Bool
  | .date _ => true
  | _ => false

/-! ### Comparator facts -/

theorem localeCompare_mem (x y : String) :
    localeCompare x y = -1 ∨ localeCompare x y = 0 ∨ localeCompare x y = 1 := by
  unfold localeCompare
  split_ifs <;> simp

theorem compareValues_self (a : Value) : compareValues a a = 0 := by
  simp [compareValues]

/-- C5 (as stated, refuted): on two `Date` values the comparator returns the
raw timestamp difference, which is not confined to `{-1, 0, 1}`. -/
theorem compareValues_range_counterexample :
    compareValues (.date 0) (.date 5000) = -5000 ∧
    ¬(compareValues (.date 0) (.date 5000) = -1 ∨
      compareValues (.date 0) (.date 5000) = 0 ∨
      compareValues (.date 0) (.date 5000) = 1) := by
  decide

/-- C5 (amended): the comparator is a total function (no exceptions),
returns 0 on equal values, and returns a value in `{-1, 0, 1}` whenever the
two arguments are not both dates; on two dates it returns the raw timestamp
difference, which can lie outside `{-1, 0, 1}`. -/
theorem compareValues_total_range (a b : Value) :
    compareValues a a = 0 ∧
    ((a.isDate && b.isDate) = false →
      compareValues a b = -1 ∨ compareValues a b = 0 ∨ compareValues a b = 1) ∧
    (∀ s t : Int, compareValues (.date s) (.date t) = s - t) := by
  refine ⟨compareValues_self a, fun hd => ?_, fun s t => ?_⟩
  · by_cases hab : a = b
    · subst hab; simp [compareValues_self]
    · rcases a with _ | _ | x | x | x | x <;> rcases b with _ | _ | y | y | y | y <;>
        first
        | exact absurd rfl hab
        | (exfalso; revert hd; simp [Value.isDate]; done)
        | (simp [compareValues, hab, Value.isNullish] <;>
            first
            | exact localeCompare_mem _ _
            | omega)
  · by_cases hst : s = t
    · subst hst; simp [compareValues]
    · have hne : Value.date s ≠ Value.date t := by simpa using hst
      simp [compareValues, hne, Value.isNullish]

theorem compareValues_total_range_witness :
    compareValues (.num 2) (.num 5) = -1 ∨ compareValues (.num 2) (.num 5) = 0 ∨
      compareValues (.num 2) (.num 5) = 1 :=
  (compareValues_total_range (.num 2) (.num 5)).2.1 rfl

/-! ### Sort-state machine (C1, C6, C7) -/

/-- C1: clicking sortable column `k` drives the sort-state machine through
`NONE → ASC(k) → DESC(k) → NONE`; any state whose active key is not `k`
moves to `ASC(k)`; three clicks from `NONE` return the state to `NONE` and
the displayed view to the original input order. -/
theorem sort_state_machine_cycle (columns : List Column) (k : String)
    (hk : columnSortable columns k = true) :
    (handleSort columns ⟨none, none⟩ k).1 = ⟨some k, some .asc⟩ ∧
    (handleSort columns ⟨some k, some .asc⟩ k).1 = ⟨some k, some .desc⟩ ∧
    (handleSort columns ⟨some k, some .desc⟩ k).1 = ⟨none, none⟩ ∧
    (∀ st : SortState, st.sortKey ≠ some k →
      (handleSort columns st k).1 = ⟨some k, some .asc⟩) ∧
    (∀ data : List Row,
      ((handleSort columns
        ((handleSort columns ((handleSort columns ⟨none, none⟩ k).1) k).1) k).1
          = ⟨none, none⟩) ∧
      sortedData data (none : Option String) (none : Option Direction) = data) := by
  refine ⟨?_, ?_, ?_, ?_, ?_⟩
  · simp [handleSort, hk]
  · simp [handleSort, hk]
  · simp [handleSort, hk]
  · intro st hst
    simp [handleSort, hk, hst]
  · intro data
    refine ⟨?_, rfl⟩
    simp [handleSort, hk]

theorem sort_state_machine_cycle_witness :
    (handleSort [⟨"name", "Name", true, none⟩] ⟨none, none⟩ "name").1
        = ⟨some "name", some .asc⟩ ∧
    (handleSort [⟨"name", "Name", true, none⟩] ⟨some "name", some .asc⟩ "name").1
        = ⟨some "name", some .desc⟩ ∧
    (handleSort [⟨"name", "Name", true, none⟩] ⟨some "name", some .desc⟩ "name").1
        = ⟨none, none⟩ := by
  have h := sort_state_machine_cycle [⟨"name", "Name", true, none⟩] "name" (by decide)
  exact ⟨h.1, h.2.1, h.2.2.1⟩

/-- C6: for a click on a sortable column, a transition landing in `ASC` or
`DESC` emits exactly the notification `(key, direction)`; a transition
landing in `NONE` emits none. -/
theorem sort_notification (columns : List Column) (st : SortState) (k : String)
    (hk : columnSortable columns k = true) :
    (∀ d : Direction, (handleSort columns st k).1.sortDirection = some d →
        (handleSort columns st k).2 = some (k, d)) ∧
    ((handleSort columns st k).1.sortDirection = none →
        (handleSort columns st k).2 = none) := by
  by_cases hsk : st.sortKey = some k
  · rcases st with ⟨sk, sd⟩
    rcases sd with _ | d
    · simp_all [handleSort, hk]
    · cases d <;> simp_all [handleSort, hk]
  · simp [handleSort, hk, hsk]

theorem sort_notification_witness :
    (handleSort [⟨"name", "Name", true, none⟩] ⟨none, none⟩ "name").2
        = some ("name", .asc) ∧
    (handleSort [⟨"name", "Name", true, none⟩] ⟨some "name", some .desc⟩ "name").2
        = none := by
  refine ⟨?_, ?_⟩
  · exact (sort_notification [⟨"name", "Name", true, none⟩] ⟨none, none⟩ "name"
      (by decide)).1 .asc (by decide)
  · exact (sort_notification [⟨"name", "Name", true, none⟩] ⟨some "name", some .desc⟩
      "name" (by decide)).2 (by decide)

/-- C7: a click on a column that is not sortable (or does not exist) leaves
the sort state unchanged and emits no notification. -/
theorem nonsortable_click_noop (columns : List Column) (st : SortState) (k : String)
    (hk : columnSortable columns k = false) :
    handleSort columns st k = (st, none) := by
  simp [handleSort, hk]

theorem nonsortable_click_noop_witness :
    handleSort [⟨"name", "Name", false, none⟩] ⟨some "other", some .asc⟩ "name"
      = (⟨some "other", some .asc⟩, none) :=
  nonsortable_click_noop [⟨"name", "Name", false, none⟩] ⟨some "other", some .asc⟩
    "name" (by decide)

/-! ### Selection tracker (C2, C3, C8, C10) -/

/-- C2: `selectAll` clears the selection when its size equals the view
length and otherwise replaces it with exactly the indices `0..N-1`; from an
empty selection it selects all `N` rows, and a second call deselects all. -/
theorem selectAll_toggle (sel : List Nat) (n : Nat) :
    (sel.length = n → handleSelectAll sel n = []) ∧
    (sel.length ≠ n → handleSelectAll sel n = List.range n) ∧
    handleSelectAll [] n = List.range n ∧
    handleSelectAll (handleSelectAll [] n) n = [] := by
  refine ⟨fun h => by simp [handleSelectAll, h], fun h => by simp [handleSelectAll, h],
    ?_, ?_⟩
  · by_cases hn : n = 0
    · subst hn; simp [handleSelectAll]
    · simp [handleSelectAll, Ne.symm hn]
  · by_cases hn : n = 0
    · subst hn; simp [handleSelectAll]
    · simp [handleSelectAll, Ne.symm hn]

theorem selectAll_toggle_witness :
    handleSelectAll [0, 1] 2 = [] ∧ handleSelectAll [0] 2 = List.range 2 :=
  ⟨(selectAll_toggle [0, 1] 2).1 rfl, (selectAll_toggle [0] 2).2.1 (by decide)⟩

/-- C3: the tri-state summary is `"none"` on an empty selection, `"all"` when
the (nonempty) selection size equals the view length, and `"partial"` when
the size is strictly between; when `N = 0` and the selection is empty the
answer is `"none"`. -/
theorem selectAllState_summary (sel : List Nat) (n : Nat) :
    (sel.length = 0 → selectAllState sel n = "none") ∧
    (sel.length ≠ 0 → sel.length = n → selectAllState sel n = "all") ∧
    (0 < sel.length → sel.length ≠ n → selectAllState sel n = "partial") ∧
    selectAllState [] 0 = "none" := by
  refine ⟨fun h => by simp [selectAllState, h], fun h h2 => ?_, fun h h2 => ?_, rfl⟩
  · unfold selectAllState
    rw [if_neg h, if_pos h2]
  · unfold selectAllState
    rw [if_neg (by omega), if_neg h2]

theorem selectAllState_summary_witness :
    selectAllState [] 3 = "none" ∧ selectAllState [0, 1, 2] 3 = "all" ∧
    selectAllState [0] 3 = "partial" := by
  refine ⟨(selectAllState_summary [] 3).1 rfl,
    (selectAllState_summary [0, 1, 2] 3).2.1 (by decide) rfl,
    (selectAllState_summary [0] 3).2.2.1 (by decide) (by decide)⟩

/-- C8 (as stated, refuted): starting from the selection `{0}` — where row 0
is already selected — toggle(0, true) then toggle(0, false) yields the empty
selection, not the prior state `{0}`. -/
theorem toggle_twice_counterexample :
    handleRowSelect [0] 0 true = [0] ∧
    handleRowSelect (handleRowSelect [0] 0 true) 0 false = [] ∧
    ([] : List Nat) ≠ [0] := by
  decide

/-- C8 (amended): for every selection in which row `i` is **not** already
selected, toggle(i, true) followed by toggle(i, false) returns the selection
to its prior state. -/
theorem toggle_twice_of_not_selected (sel : List Nat) (i : Nat) (h : i ∉ sel) :
    handleRowSelect (handleRowSelect sel i true) i false = sel := by
  simp only [handleRowSelect, if_pos, if_neg, ite_true, ite_false]
  rw [if_neg h, List.erase_append_right _ h]
  simp

theorem toggle_twice_of_not_selected_witness :
    handleRowSelect (handleRowSelect [1, 2] 0 true) 0 false = [1, 2] :=
  toggle_twice_of_not_selected [1, 2] 0 (by decide)

/-- C10: both `selectAll` and the tri-state summary decide "all selected" by
cardinality alone: any selection whose size equals the view length — even one
holding out-of-range indices — is cleared by `selectAll` and summarized as
`"all"` (for a nonempty view). -/
theorem cardinality_only_selection (sel : List Nat) (n : Nat) (h : sel.length = n) :
    handleSelectAll sel n = [] ∧ (0 < n → selectAllState sel n = "all") := by
  constructor
  · simp [handleSelectAll, h]
  · intro hn
    unfold selectAllState
    rw [if_neg (by omega), if_pos h]

theorem cardinality_only_selection_witness :
    handleSelectAll [5, 6, 7] 3 = [] ∧ selectAllState [5, 6, 7] 3 = "all" :=
  ⟨(cardinality_only_selection [5, 6, 7] 3 rfl).1,
    (cardinality_only_selection [5, 6, 7] 3 rfl).2 (by decide)⟩

/-! ### Cell renderer (C9) -/

/-- C9: `renderCell` returns the custom `render` result verbatim when one is
supplied, and otherwise the display string of the cell value; a boolean cell
with no custom formatter renders as `"true"`/`"false"`, and a null cell
renders as `""`. -/
theorem renderCell_dispatch (column : Column) (row : Row) :
    (∀ f, column.render = some f →
      renderCell column row = f (row column.key) row) ∧
    (column.render = none →
      renderCell column row = .text (jsDisplayString (row column.key)) ∧
      (∀ b : Bool, row column.key = .bool b →
        renderCell column row = .text (if b then "true" else "false")) ∧
      (row column.key = .null → renderCell column row = .text "")) := by
  constructor
  · intro f hf
    simp [renderCell, hf]
  · intro hf
    refine ⟨by simp [renderCell, hf], fun b hb => ?_, fun hb => ?_⟩
    · simp [renderCell, hf, hb, jsDisplayString, jsToString]
    · simp [renderCell, hf, hb, jsDisplayString]

theorem renderCell_dispatch_witness :
    renderCell ⟨"done", "Done", false, none⟩ (fun _ => .bool true) = .text "true" ∧
    renderCell ⟨"done", "Done", false, none⟩ (fun _ => .null) = .text "" := by
  refine ⟨?_, ?_⟩
  · exact ((renderCell_dispatch ⟨"done", "Done", false, none⟩ (fun _ => .bool true)).2
      rfl).2.1 true rfl
  · exact ((renderCell_dispatch ⟨"done", "Done", false, none⟩ (fun _ => .null)).2
      rfl).2.2 rfl

end DataTable
